import Mathlib

/-!
Verification development for the EraseX certificate issuance and
signature-verification subsystem (`app.py`, `verify.py`, `genkeys.py`).

Conventions of the shallow embedding:
* Python byte strings are `List Nat` (each entry a byte value `< 256`).
* Python text strings are `List Char`.
* The external `cryptography` library primitives (SHA-256, RSASSA-PKCS1-v1_5,
  PEM key loading) are embedded as executable pure functions following their
  documented contracts (FIPS 180-4, RFC 8017); PEM serialization internals are
  modelled by an injective header/length-prefixed byte encoding with a total
  parser, since only load-success/failure and the decoded `(n, e)` matter.
* Nondeterministic inputs (`uuid.uuid4()`, `datetime.now()`) appear as
  explicit oracle parameters.
-/

namespace EraseX

/-! ## Byte and word helpers -/

/-- Truncate to a 32-bit word. -/
def w32 (x : Nat) : Nat := x % 4294967296

/-- Right-rotation of a 32-bit word by `n` places (`0 < n < 32`). -/
def rotr32 (n x : Nat) : Nat :=
  w32 (Nat.lor (x >>> n) (x <<< (32 - n)))

/-- Big-endian fixed-width byte serialization (`k` bytes, most significant first). -/
def toBytesBE : Nat → Nat → List Nat
  | 0, _ => []
  | k + 1, n => toBytesBE k (n / 256) ++ [n % 256]

/-- Big-endian interpretation of a byte list as a natural number (OS2IP, RFC 8017). -/
def fromBytesBE (l : List Nat) : Nat :=
  l.foldl (fun acc b => acc * 256 + b) 0

/-- Little-endian base-256 digits, fuel-driven so the kernel can reduce it. -/
def natToBytesLEAux : Nat → Nat → List Nat
  | 0, _ => []
  | fuel + 1, n => if n = 0 then [] else n % 256 :: natToBytesLEAux fuel (n / 256)

/-- Canonical little-endian base-256 digits of a natural number (`[]` for `0`,
no trailing zero digit). -/
def natToBytesLE (n : Nat) : List Nat := natToBytesLEAux n n

/-- Little-endian interpretation of a byte list as a natural number. -/
def fromBytesLE : List Nat → Nat
  | [] => 0
  | b :: rest => b + 256 * fromBytesLE rest

/-- Number of base-256 digits of `n` (the octet length of an RSA modulus). -/
def octetLength (n : Nat) : Nat := (natToBytesLE n).length

/-! ## SHA-256 (FIPS 180-4), executable over byte lists -/

/-- The eight initial SHA-256 hash values (FIPS 180-4 §5.3.3), in decimal. -/
def sha256InitA : Nat := 1779033703
def sha256InitB : Nat := 3144134277
def sha256InitC : Nat := 1013904242
def sha256InitD : Nat := 2773480762
def sha256InitE : Nat := 1359893119
def sha256InitF : Nat := 2600822924
def sha256InitG : Nat := 528734635
def sha256InitH : Nat := 1541459225

/-- The 64 SHA-256 round constants (FIPS 180-4 §4.2.2), written in decimal. -/
def sha256K : List Nat :=
  [1116352408, 1899447441, 3049323471, 3921009573,
   961987163, 1508970993, 2453635748, 2870763221,
   3624381080, 310598401, 607225278, 1426881987,
   1925078388, 2162078206, 2614888103, 3248222580,
   3835390401, 4022224774, 264347078, 604807628,
   770255983, 1249150122, 1555081692, 1996064986,
   2554220882, 2821834349, 2952996808, 3210313671,
   3336571891, 3584528711, 113926993, 338241895,
   666307205, 773529912, 1294757372, 1396182291,
   1695183700, 1986661051, 2177026350, 2456956037,
   2730485921, 2820302411, 3259730800, 3345764771,
   3516065817, 3600352804, 4094571909, 275423344,
   430227734, 506948616, 659060556, 883997877,
   958139571, 1322822218, 1537002063, 1747873779,
   1955562222, 2024104815, 2227730452, 2361852424,
   2428436474, 2756734187, 3204031479, 3329325298]

/-- `Ch(x, y, z)`. -/
def shaCh (x y z : Nat) : Nat :=
  Nat.xor (Nat.land x y) (Nat.land (Nat.xor x 4294967295) z)

/-- `Maj(x, y, z)`. -/
def shaMaj (x y z : Nat) : Nat :=
  Nat.xor (Nat.xor (Nat.land x y) (Nat.land x z)) (Nat.land y z)

/-- `Σ₀(x)`. -/
def bigSigma0 (x : Nat) : Nat :=
  Nat.xor (Nat.xor (rotr32 2 x) (rotr32 13 x)) (rotr32 22 x)

/-- `Σ₁(x)`. -/
def bigSigma1 (x : Nat) : Nat :=
  Nat.xor (Nat.xor (rotr32 6 x) (rotr32 11 x)) (rotr32 25 x)

/-- `σ₀(x)`. -/
def smallSigma0 (x : Nat) : Nat :=
  Nat.xor (Nat.xor (rotr32 7 x) (rotr32 18 x)) (x >>> 3)

/-- `σ₁(x)`. -/
def smallSigma1 (x : Nat) : Nat :=
  Nat.xor (Nat.xor (rotr32 17 x) (rotr32 19 x)) (x >>> 10)

/-- SHA-256 message padding: append `0x80`, zeros to 56 mod 64, then the
64-bit big-endian bit length. -/
def sha256Pad (msg : List Nat) : List Nat :=
  msg ++ 128 :: List.replicate ((119 - msg.length % 64) % 64) 0
      ++ toBytesBE 8 (8 * msg.length)

/-- Parse a byte list into big-endian 32-bit words (4 bytes each). -/
def toWordsBE : List Nat → List Nat
  | a :: b :: c :: d :: rest => (((a * 256 + b) * 256 + c) * 256 + d) :: toWordsBE rest
  | _ => []

/-- Extend the 16-word message schedule; the accumulator holds the schedule in
reverse (newest word first). -/
def extendSchedule : Nat → List Nat → List Nat
  | 0, revW => revW
  | t + 1, revW =>
      extendSchedule t
        (w32 (smallSigma1 (revW.getD 1 0) + revW.getD 6 0 +
              smallSigma0 (revW.getD 14 0) + revW.getD 15 0) :: revW)

/-- The full 64-word message schedule of one 64-byte block. -/
def sha256Schedule (block : List Nat) : List Nat :=
  (extendSchedule 48 (toWordsBE block).reverse).reverse

/-- Working state of the SHA-256 compression function. -/
structure ShaState where
  sa : Nat
  sb : Nat
  sc : Nat
  sd : Nat
  se : Nat
  sf : Nat
  sg : Nat
  sh : Nat

/-- One SHA-256 round with round constant `kt` and schedule word `wt`. -/
def sha256Round (st : ShaState) (kw : Nat × Nat) : ShaState :=
  let t1 := w32 (st.sh + bigSigma1 st.se + shaCh st.se st.sf st.sg + kw.1 + kw.2)
  let t2 := w32 (bigSigma0 st.sa + shaMaj st.sa st.sb st.sc)
  ⟨w32 (t1 + t2), st.sa, st.sb, st.sc, w32 (st.sd + t1), st.se, st.sf, st.sg⟩

/-- Process one 64-byte block, updating the chaining state. -/
def sha256Compress (st : ShaState) (block : List Nat) : ShaState :=
  let fin := (sha256K.zip (sha256Schedule block)).foldl sha256Round st
  ⟨w32 (st.sa + fin.sa), w32 (st.sb + fin.sb), w32 (st.sc + fin.sc), w32 (st.sd + fin.sd),
   w32 (st.se + fin.se), w32 (st.sf + fin.sf), w32 (st.sg + fin.sg), w32 (st.sh + fin.sh)⟩

/-- Fold the compression function over all 64-byte blocks; `fuel` bounds the
recursion so that it is structural (any `fuel ≥ msg.length / 64 + 1` suffices). -/
def sha256Blocks : Nat → ShaState → List Nat → ShaState
  | 0, st, _ => st
  | _, st, [] => st
  | fuel + 1, st, msg => sha256Blocks fuel (sha256Compress st (msg.take 64)) (msg.drop 64)

/-- SHA-256 digest (32 bytes) of a byte list. -/
def sha256 (msg : List Nat) : List Nat :=
  let padded := sha256Pad msg
  let st := sha256Blocks padded.length
    ⟨sha256InitA, sha256InitB, sha256InitC, sha256InitD,
     sha256InitE, sha256InitF, sha256InitG, sha256InitH⟩ padded
  toBytesBE 4 st.sa ++ toBytesBE 4 st.sb ++ toBytesBE 4 st.sc ++ toBytesBE 4 st.sd ++
  toBytesBE 4 st.se ++ toBytesBE 4 st.sf ++ toBytesBE 4 st.sg ++ toBytesBE 4 st.sh

/-- Lowercase hexadecimal character for a nibble. -/
def hexDigit (n : Nat) : Char :=
  if n < 10 then Char.ofNat (48 + n) else Char.ofNat (87 + n)

/-- Lowercase hexadecimal rendering of a byte list. -/
def bytesToHex (l : List Nat) : List Char :=
  l.foldr (fun b acc => hexDigit (b / 16) :: hexDigit (b % 16) :: acc) []

/-- `hashlib.sha256(msg).hexdigest()`: the 64-character lowercase hex digest. -/
def sha256Hex (msg : List Nat) : List Char := bytesToHex (sha256 msg)

/-- Byte values of a text string (ASCII/UTF-8 code points; all strings in this
development are ASCII). -/
def strBytes (s : String) : List Nat := s.data.map Char.toNat

/-! ## RSASSA-PKCS1-v1_5 (contract of the external `cryptography` library,
RFC 8017).  The encoding step `EMSA-PKCS1-v1_5` is kept as an explicit
parameter `pad` of the sign/verify engine (the library applies it internally);
`emsaPkcs1v15Sha256` below is the concrete instance selected by
`padding.PKCS1v15()` together with `hashes.SHA256()` in `verify.py`. -/

structure RSAPublicKey where
  n : Nat
  e : Nat
  deriving DecidableEq

structure RSAPrivateKey where
  n : Nat
  d : Nat
  deriving DecidableEq

/-- DER `DigestInfo` header bytes for SHA-256 (RFC 8017 §9.2 note 1), in
decimal. -/
def sha256DigestInfo : List Nat :=
  [48, 49, 48, 13, 6, 9, 96, 134, 72, 1, 101, 3, 4, 2, 1, 5, 0, 4, 32]

/-- EMSA-PKCS1-v1_5 encoding with SHA-256 (RFC 8017 §9.2), as the integer value
of the encoded message `00 01 FF..FF 00 ‖ DigestInfo ‖ H(data)`; `none` when
the intended encoded-message length is too short. -/
def emsaPkcs1v15Sha256 (data : List Nat) (emLen : Nat) : Option Nat :=
  let t := sha256DigestInfo ++ sha256 data
  if emLen < t.length + 11 then none
  else some (fromBytesBE (0 :: 1 :: List.replicate (emLen - t.length - 3) 255 ++ 0 :: t))

/-- RSASSA signature generation (RFC 8017 §8.2.1) generic in the deterministic
encoding `pad`: encode, check the representative is below the modulus, apply
the RSA private-key operation, serialize to the key's octet length. -/
def rsassaSign (pad : List Nat → Nat → Option Nat) (sk : RSAPrivateKey)
    (data : List Nat) : Option (List Nat) :=
  match pad data (octetLength sk.n) with
  | none => none
  | some m => if m < sk.n then some (toBytesBE (octetLength sk.n) (m ^ sk.d % sk.n)) else none

/-- RSASSA signature verification (RFC 8017 §8.2.2) generic in the
deterministic encoding `pad`: a wrong-length signature, an out-of-range
signature representative, a failing encoding, or a comparison mismatch all
yield `false` (the library raises `InvalidSignature`, which `verify.py`
catches). -/
def rsassaVerify (pad : List Nat → Nat → Option Nat) (pk : RSAPublicKey)
    (signature data : List Nat) : Bool :=
  if signature.length = octetLength pk.n then
    match pad data (octetLength pk.n) with
    | none => false
    | some m =>
        decide (fromBytesBE signature < pk.n) &&
        decide (fromBytesBE signature ^ pk.e % pk.n = m)
  else false

/-! ## PEM public-key serialization (model of the external library's
`load_pem_public_key` / `public_bytes`): an injective byte encoding carrying
`(n, e)` — header byte, length-prefixed canonical base-256 modulus, canonical
base-256 exponent — with a total parser returning `none` on any malformation,
which the library surfaces by raising `ValueError`. -/

/-- Serialization of an RSA public key (model of PEM `SubjectPublicKeyInfo`). -/
def pemEncodePublicKey (k : RSAPublicKey) : List Nat :=
  77 :: (natToBytesLE k.n).length :: (natToBytesLE k.n ++ natToBytesLE k.e)

/-- Parser for the public-key serialization; `none` models the `ValueError`
raised by `load_pem_public_key` on malformed input. -/
def loadPemPublicKey (bs : List Nat) : Option RSAPublicKey :=
  match bs with
  | tag :: len :: rest =>
      if tag = 77 ∧ len ≤ rest.length then
        let nb := rest.take len
        let eb := rest.drop len
        if natToBytesLE (fromBytesLE nb) = nb ∧ natToBytesLE (fromBytesLE eb) = eb then
          some ⟨fromBytesLE nb, fromBytesLE eb⟩
        else none
      else none
  | _ => none

/-! ## `verify.py` -/

/-- Apostrophe character (kept out of string literals). -/
def apos : Char := Char.ofNat 39

/-- Error text standing for the `ValueError` raised by PEM deserialization. -/
def keyLoadError : List Char := "Could not deserialize key data".data

/-- Embedding of `verify_certificate` (`src/verify.py`): given the certificate
file bytes, the signature file bytes and the public-key file bytes, load the
PEM key (an uncaught `ValueError` — modelled as `Except.error` — if it is
malformed), then check the RSA-PKCS1v15/SHA-256 signature over the raw
certificate bytes; `InvalidSignature` is caught and surfaced as `false`. -/
def verify_certificate (cert_data signature pubkey_bytes : List Nat) :
    Except (List Char) Bool :=
  match loadPemPublicKey pubkey_bytes with
  | none => Except.error keyLoadError
  | some pubkey => Except.ok (rsassaVerify emsaPkcs1v15Sha256 pubkey signature cert_data)

/-! ## `app.py` -/

/-- The demo plaintext hashed during a simulated wipe. -/
def demoBytes : List Nat := strBytes "DemoSensitiveDataForHashing"

/-- One value of the `wipe_history` dict: the record `app.py` stores per
certificate id. -/
structure WipeEntry where
  drive : List Char
  pre_hash : List Char
  post_hash : List Char
  timestamp : List Char
  file : List Char
  deriving DecidableEq

/-- The in-memory `wipe_history` dict, as an association list in which the
most recent binding of a key shadows older ones. -/
abbrev WipeHistory := List (List Char × WipeEntry)

/-- `wipe_history.get(cert_id)`: first (most recent) binding, `None` if absent. -/
def dictGet (k : List Char) : WipeHistory → Option WipeEntry
  | [] => none
  | (k2, v) :: rest => if k2 = k then some v else dictGet k rest

/-- `wipe_history[cert_id] = entry`: Python dict assignment — inserts or
silently overwrites the existing binding. -/
def dictSet (k : List Char) (v : WipeEntry) (m : WipeHistory) : WipeHistory :=
  (k, v) :: m.filter (fun p => decide (p.1 ≠ k))

/-- Response of the `/wipe-drive` route: the 400 error or the success JSON. -/
inductive WipeResult where
  | badRequest (msg : List Char)
  | ok (drive pre_hash post_hash certificate_id download_url : List Char)
  deriving DecidableEq

/-- The 400-error message of `/wipe-drive`. -/
def pleaseSpecifyDrive : List Char :=
  "Please specify ".data ++ [apos] ++ "drive".data ++ [apos]

/-- PDF output path used by `generate_pdf_certificate`. -/
def certPdfPath (cert_id : List Char) : List Char :=
  "certificates/erasex_cert_".data ++ cert_id ++ ".pdf".data

/-- Embedding of `api_wipe_drive` (`src/app.py`): reads the `drive` field of
the request body; on a missing or empty value returns the 400 error leaving
`wipe_history` untouched; otherwise computes the two demo digests, derives the
certificate id from the fresh UUID string (`str(uuid.uuid4())[:8]`), writes
the entry into `wipe_history` by plain dict assignment and returns the success
response.  `uuid` and `now` are the oracle values of `uuid.uuid4()` and
`datetime.now().isoformat()`. -/
def api_wipe_drive (hist : WipeHistory) (driveField : Option (List Char))
    (uuid now : List Char) : WipeHistory × WipeResult :=
  match driveField with
  | none => (hist, .badRequest pleaseSpecifyDrive)
  | some drive =>
    if drive = [] then (hist, .badRequest pleaseSpecifyDrive)
    else
      let pre_hash := sha256Hex demoBytes
      let post_hash := sha256Hex (List.replicate demoBytes.length 0)
      let cert_id := uuid.take 8
      let entry : WipeEntry :=
        ⟨drive, pre_hash, post_hash, now, certPdfPath cert_id⟩
      (dictSet cert_id entry hist,
       .ok drive pre_hash post_hash cert_id ("/download/".data ++ cert_id))

/-- Response of the `/download/<cert_id>` route. -/
inductive DownloadResult where
  | notFound (msg : List Char)
  | sendFile (path : List Char)
  deriving DecidableEq

/-- Embedding of `download_certificate` (`src/app.py`): a missing id yields
the 404 response, a present one sends the stored file. -/
def download_certificate (hist : WipeHistory) (cert_id : List Char) : DownloadResult :=
  match dictGet cert_id hist with
  | none => .notFound "Certificate not found".data
  | some entry => .sendFile entry.file

/-- Response of the `/verify/<cert_id>` route. -/
inductive VerifyPageResult where
  | notFound (cert_id : List Char)
  | page (cert_id drive timestamp pre_hash post_hash : List Char)
  deriving DecidableEq

/-- Embedding of the `verify` route (`src/app.py`): a missing id yields the
404 page, a present one renders the stored entry. -/
def verifyRoute (hist : WipeHistory) (cert_id : List Char) : VerifyPageResult :=
  match dictGet cert_id hist with
  | none => .notFound cert_id
  | some entry => .page cert_id entry.drive entry.timestamp entry.pre_hash entry.post_hash

/-- The detached verification of a distributed certificate runs in a process
(`verify.py`) whose inputs are exactly the three files; the server state is
passed here only so that independence from it can be stated. -/
def verifyDetached (_hist : WipeHistory) (cert_data signature pubkey_bytes : List Nat) :
    Except (List Char) Bool :=
  verify_certificate cert_data signature pubkey_bytes

/-! ## Spec-modelled components (Signer, Canonicalizer, Hash Evidence Capture)

The repository distributes signing across an offline flow: `genkeys.py`
produces `operator_private.pem` / `operator_public.pem` and `verify.py`
consumes `<cert.json>, <cert.sig>, <operator_public.pem>`, but the script that
writes `cert.json` and `cert.sig` is not under `src/`.  The definitions below
model those missing parts from the spec. -/

/-- Modelled from the spec: the canonical attestation Record (§3) — the
signing script that builds `cert.json` is absent from `src/`. -/
structure Record where
  id : List Char
  subject : List Char
  issued_at : List Char
  pre_hash : List Char
  post_hash : List Char
  deriving DecidableEq

/-- Modelled from the spec: the Canonicalizer (§4.1, §6) — a fixed-order JSON
object with explicit field names `id, subject, issued_at, pre_hash,
post_hash`; absent from `src/`. -/
def canonicalBytes (r : Record) : List Nat :=
  ("\x7b\"id\":\"".data ++ r.id ++ "\",\"subject\":\"".data ++ r.subject ++
   "\",\"issued_at\":\"".data ++ r.issued_at ++ "\",\"pre_hash\":\"".data ++ r.pre_hash ++
   "\",\"post_hash\":\"".data ++ r.post_hash ++ "\"\x7d".data).map Char.toNat

/-- Modelled from the spec: the Signer's `issue` operation (§4.3) — an
RSA signature over the canonical bytes of the record; absent from `src/`.
Generic in the library's encoding step `pad` like `rsassaSign`. -/
def issueRecord (pad : List Nat → Nat → Option Nat) (sk : RSAPrivateKey)
    (r : Record) : Option (List Nat) :=
  rsassaSign pad sk (canonicalBytes r)

/-- The error taxonomy of spec §7 (the constructors needed here). -/
inductive IssueError where
  | MalformedDigest
  | IncompleteRecord
  | SigningUnavailable
  | DuplicateId
  deriving DecidableEq

/-- Lowercase hexadecimal digit test. -/
def isLowerHexDigit (c : Char) : Bool :=
  decide ((48 ≤ c.toNat ∧ c.toNat ≤ 57) ∨ (97 ≤ c.toNat ∧ c.toNat ≤ 102))

/-- A valid evidence digest string: exactly 64 lowercase hex characters. -/
def validDigest64 (s : List Char) : Bool :=
  decide (s.length = 64) && s.all isLowerHexDigit

/-- Modelled from the spec: Hash Evidence Capture for pre-computed digest
strings (§4.2) — absent from `src/` (the web app only ever computes digests
itself); validates 64 lowercase hex characters, else `MalformedDigest`. -/
def captureDigest (s : List Char) : Except IssueError (List Char) :=
  if validDigest64 s then Except.ok s else Except.error IssueError.MalformedDigest

/-- Modelled from the spec: issuance from supplied digest strings (§4.2, §7) —
absent from `src/`.  Digest validation happens first; on failure the
computation aborts with `MalformedDigest` before any record is built or any
signature is computed, so the error case carries neither. -/
def issueWithDigests (pad : List Nat → Nat → Option Nat) (sk : RSAPrivateKey)
    (id subject issued_at pre post : List Char) :
    Except IssueError (Record × Option (List Nat)) :=
  match captureDigest pre with
  | Except.error err => Except.error err
  | Except.ok p =>
    match captureDigest post with
    | Except.error err => Except.error err
    | Except.ok q =>
      let r : Record := ⟨id, subject, issued_at, p, q⟩
      Except.ok (r, issueRecord pad sk r)

/-! ## Projection helpers and concrete sample inputs

The projections read single components of route responses; the samples are
concrete inputs used to instantiate the theorems below. -/

/-- Whether a `/wipe-drive` response is the success JSON. -/
def wipeResultOk : WipeResult → Bool
  | .badRequest _ => false
  | .ok _ _ _ _ _ => true

/-- The `pre_hash` field of a successful `/wipe-drive` response. -/
def wipePreHash : WipeResult → Option (List Char)
  | .badRequest _ => none
  | .ok _ ph _ _ _ => some ph

/-- The `post_hash` field of a successful `/wipe-drive` response. -/
def wipePostHash : WipeResult → Option (List Char)
  | .badRequest _ => none
  | .ok _ _ ph _ _ => some ph

/-- The `certificate_id` field of a successful `/wipe-drive` response. -/
def wipeCertId : WipeResult → Option (List Char)
  | .badRequest _ => none
  | .ok _ _ _ cid _ => some cid

/-- A sample `uuid.uuid4()` rendering (36 characters). -/
def uuidSample : List Char := "a1b2c3d4-9f2e-4c3a-8b1d-0e5f6a7b8c9d".data

/-- A second sample UUID sharing the first eight characters with
`uuidSample` (a truncation collision). -/
def uuidSample2 : List Char := "a1b2c3d4-17aa-4bb0-9c6e-ffee00112233".data

/-- Sample `datetime.now().isoformat()` values. -/
def nowSample : List Char := "2024-01-01T00:00:00".data
def nowSample2 : List Char := "2024-01-01T00:05:00".data

/-- A trivial deterministic encoding, used to instantiate the generic
RSASSA engine at a key size small enough for concrete checking. -/
def toyPad : List Nat → Nat → Option Nat := fun _ _ => some 2

/-- The concrete scenario Record of spec §8. -/
def demoRecord : Record :=
  ⟨"a1b2c3d4".data, "Drive D:".data, "2024-01-01T00:00:00Z".data,
   "d64e4261d26543f3fd3caf28edadafaf9a65bea1e3078c4c4e6cb46c4817769a".data,
   "ea49aa9f6f6cf2d53d454e628ba5a339cc000230c4651655d0237711d747f50b".data⟩

/-- A sample registry entry. -/
def entrySample : WipeEntry :=
  ⟨"D:".data, [], [], nowSample, "certificates/erasex_cert_a1b2c3d4.pdf".data⟩

/-- A one-entry registry. -/
def histSample : WipeHistory := [("a1b2c3d4".data, entrySample)]

/-! ## Arithmetic lemmas: byte serialization -/

theorem toBytesBE_length (k : Nat) : ∀ n, (toBytesBE k n).length = k := by
  induction k with
  | zero => intro n; rfl
  | succ k ih => intro n; simp [toBytesBE, ih]

theorem fromBytesBE_append_singleton (l : List Nat) (b : Nat) :
    fromBytesBE (l ++ [b]) = fromBytesBE l * 256 + b := by
  simp [fromBytesBE, List.foldl_append]

theorem fromBytesBE_toBytesBE (k : Nat) : ∀ n, n < 256 ^ k →
    fromBytesBE (toBytesBE k n) = n := by
  induction k with
  | zero =>
      intro n h
      have : n = 0 := by simpa using h
      simp [this, toBytesBE, fromBytesBE]
  | succ k ih =>
      intro n h
      have hdiv : n / 256 < 256 ^ k := by
        rw [Nat.div_lt_iff_lt_mul (by norm_num : 0 < 256)]
        calc n < 256 ^ (k + 1) := h
        _ = 256 ^ k * 256 := by rw [pow_succ]
      rw [toBytesBE, fromBytesBE_append_singleton, ih _ hdiv]
      omega

theorem natToBytesLEAux_spec (fuel : Nat) : ∀ n, n ≤ fuel →
    fromBytesLE (natToBytesLEAux fuel n) = n ∧
      n < 256 ^ (natToBytesLEAux fuel n).length := by
  induction fuel with
  | zero =>
      intro n hn
      have : n = 0 := by omega
      subst this
      simp [natToBytesLEAux, fromBytesLE]
  | succ fuel ih =>
      intro n hn
      by_cases h0 : n = 0
      · subst h0; simp [natToBytesLEAux, fromBytesLE]
      · have hlt : n / 256 < n := Nat.div_lt_self (Nat.pos_of_ne_zero h0) (by norm_num)
        have hrec := ih (n / 256) (by omega)
        rw [natToBytesLEAux, if_neg h0]
        refine ⟨?_, ?_⟩
        · rw [fromBytesLE, hrec.1]; omega
        · have hb := hrec.2
          have h1 : n < 256 * (n / 256 + 1) := by omega
          have h2 : 256 * (n / 256 + 1) ≤ 256 * 256 ^ (natToBytesLEAux fuel (n / 256)).length :=
            Nat.mul_le_mul_left 256 hb
          calc n < 256 * (n / 256 + 1) := h1
          _ ≤ 256 * 256 ^ (natToBytesLEAux fuel (n / 256)).length := h2
          _ = 256 ^ ((n % 256 :: natToBytesLEAux fuel (n / 256)).length) := by
              rw [List.length_cons, pow_succ, Nat.mul_comm]

theorem fromBytesLE_natToBytesLE (n : Nat) : fromBytesLE (natToBytesLE n) = n :=
  (natToBytesLEAux_spec n n le_rfl).1

theorem lt_pow_octetLength (n : Nat) : n < 256 ^ octetLength n :=
  (natToBytesLEAux_spec n n le_rfl).2

theorem loadPem_roundtrip (k : RSAPublicKey) :
    loadPemPublicKey (pemEncodePublicKey k) = some k := by
  have hle : (natToBytesLE k.n).length ≤ (natToBytesLE k.n ++ natToBytesLE k.e).length := by
    simp
  simp [loadPemPublicKey, pemEncodePublicKey, hle, List.take_left, List.drop_left,
    fromBytesLE_natToBytesLE]

/-! ## Arithmetic lemmas: RSA correctness -/

theorem pow_one_add_mul_totient_prime {p t : Nat} (m : Nat) (hp : p.Prime) :
    m ^ (1 + t * (p - 1)) ≡ m [MOD p] := by
  by_cases hpm : p ∣ m
  · have h0 : m ≡ 0 [MOD p] := (Nat.modEq_zero_iff_dvd).2 hpm
    calc m ^ (1 + t * (p - 1)) = m * m ^ (t * (p - 1)) := by rw [pow_add, pow_one]
    _ ≡ 0 * m ^ (t * (p - 1)) [MOD p] := Nat.ModEq.mul h0 (Nat.ModEq.refl _)
    _ = 0 := by ring
    _ ≡ m [MOD p] := h0.symm
  · haveI : Fact p.Prime := ⟨hp⟩
    have hcast : (m : ZMod p) ≠ 0 := by
      rw [Ne, ZMod.natCast_zmod_eq_zero_iff_dvd]
      exact hpm
    have hferm : (m : ZMod p) ^ (p - 1) = 1 := ZMod.pow_card_sub_one_eq_one hcast
    have hz : ((m ^ (1 + t * (p - 1)) : Nat) : ZMod p) = ((m : Nat) : ZMod p) := by
      push_cast
      rw [pow_add, pow_one, Nat.mul_comm t (p - 1), pow_mul, hferm, one_pow, mul_one]
    exact (ZMod.natCast_eq_natCast_iff _ _ _).1 hz

theorem rsa_pow_modEq {p q e d : Nat} (m : Nat) (hp : p.Prime) (hq : q.Prime)
    (hpq : p ≠ q) (hed : d * e % ((p - 1) * (q - 1)) = 1) :
    m ^ (d * e) ≡ m [MOD p * q] := by
  have hsplit := Nat.div_add_mod (d * e) ((p - 1) * (q - 1))
  set t := d * e / ((p - 1) * (q - 1)) with ht
  have hde : d * e = 1 + ((p - 1) * (q - 1)) * t := by omega
  have h1 : m ^ (d * e) ≡ m [MOD p] := by
    have hrw : d * e = 1 + (t * (q - 1)) * (p - 1) := by rw [hde]; ring
    rw [hrw]
    exact pow_one_add_mul_totient_prime m hp
  have h2 : m ^ (d * e) ≡ m [MOD q] := by
    have hrw : d * e = 1 + (t * (p - 1)) * (q - 1) := by rw [hde]; ring
    rw [hrw]
    exact pow_one_add_mul_totient_prime m hq
  exact (Nat.modEq_and_modEq_iff_modEq_mul
    ((Nat.coprime_primes hp hq).2 hpq)).1 ⟨h1, h2⟩

theorem rsa_roundtrip {p q e d m : Nat} (hp : p.Prime) (hq : q.Prime) (hpq : p ≠ q)
    (hed : d * e % ((p - 1) * (q - 1)) = 1) (hm : m < p * q) :
    (m ^ d % (p * q)) ^ e % (p * q) = m := by
  have h1 : (m ^ d % (p * q)) ^ e ≡ (m ^ d) ^ e [MOD p * q] :=
    (Nat.mod_modEq (m ^ d) (p * q)).pow e
  have h2 : (m ^ d) ^ e ≡ m [MOD p * q] := by
    rw [← pow_mul]
    exact rsa_pow_modEq m hp hq hpq hed
  have h3 : (m ^ d % (p * q)) ^ e ≡ m [MOD p * q] := h1.trans h2
  have h4 : (m ^ d % (p * q)) ^ e % (p * q) = m % (p * q) := h3
  rw [h4, Nat.mod_eq_of_lt hm]

/-! ## Known-answer sanity check for the SHA-256 embedding -/

/-- FIPS 180-4 known answer: the SHA-256 digest of the empty byte string. -/
theorem sha256_empty_kat : sha256Hex [] =
    "e3b0c44298fc1c149afbf4c8996fb92427ae41e4649b934ca495991b7852b855".data := by
  decide

/-! ## Claim theorems -/

/-- Claim C1: round-trip issuance/verification — for every Record `r`, issuing
`r` under a valid RSA private key produces a signature that the RSASSA
verifier accepts for `r`'s canonical bytes under the matching public key.
The library's deterministic encoding step is the parameter `pad`; the
hypotheses say the keypair is a genuine RSA pair and that issuance succeeded. -/
theorem c1_issue_verify_valid
    (pad : List Nat → Nat → Option Nat) (p q e d : Nat) (r : Record) (s : List Nat)
    (hp : p.Prime) (hq : q.Prime) (hpq : p ≠ q)
    (hed : d * e % ((p - 1) * (q - 1)) = 1)
    (hiss : issueRecord pad ⟨p * q, d⟩ r = some s) :
    rsassaVerify pad ⟨p * q, e⟩ s (canonicalBytes r) = true := by
  have hnpos : 0 < p * q := Nat.mul_pos hp.pos hq.pos
  unfold issueRecord rsassaSign at hiss
  dsimp only at hiss
  cases hpad : pad (canonicalBytes r) (octetLength (p * q)) with
  | none => rw [hpad] at hiss; cases hiss
  | some m =>
      rw [hpad] at hiss
      dsimp only at hiss
      by_cases hm : m < p * q
      · rw [if_pos hm] at hiss
        have hs : s = toBytesBE (octetLength (p * q)) (m ^ d % (p * q)) :=
          (Option.some.inj hiss).symm
        subst hs
        have hmod : m ^ d % (p * q) < p * q := Nat.mod_lt _ hnpos
        have hlt : m ^ d % (p * q) < 256 ^ octetLength (p * q) :=
          lt_trans hmod (lt_pow_octetLength _)
        unfold rsassaVerify
        dsimp only
        rw [if_pos (toBytesBE_length _ _), hpad]
        simp only [Bool.and_eq_true, decide_eq_true_eq,
          fromBytesBE_toBytesBE _ _ hlt]
        exact ⟨hmod, rsa_roundtrip hp hq hpq hed hm⟩
      · rw [if_neg hm] at hiss; cases hiss

/-- Witness for C1 at the keypair `(p, q, e, d) = (3, 11, 3, 7)` and the
concrete scenario Record of spec §8: the signature is `2 ^ 7 mod 33 = 29`. -/
theorem c1_issue_verify_valid_witness :
    issueRecord toyPad ⟨33, 7⟩ demoRecord = some [29] ∧
    rsassaVerify toyPad ⟨33, 3⟩ [29] (canonicalBytes demoRecord) = true := by
  have hiss : issueRecord toyPad ⟨33, 7⟩ demoRecord = some [29] := by decide
  exact ⟨hiss, c1_issue_verify_valid toyPad 3 11 3 7 demoRecord [29]
    (by norm_num) (by norm_num) (by decide) (by decide) hiss⟩

/-- Claim C2: verification is reproducible from its three inputs alone — the
detached verifier gives the same result under any two server registry
states. -/
theorem c2_verify_state_independent (h1 h2 : WipeHistory) (cert sig pk : List Nat) :
    verifyDetached h1 cert sig pk = verifyDetached h2 cert sig pk := rfl

/-- Counterexample to claim C3: `verify_certificate` does not return `Invalid`
on a malformed public key — PEM loading fails outside the `try` block, so the
`ValueError` propagates (modelled as `Except.error`). -/
theorem c3_counterexample :
    verify_certificate (strBytes "cert") [1, 2, 3] [] = Except.error keyLoadError := rfl

/-- Claim C3 (amended): for a well-formed public key, verification never
raises: it returns a normal boolean verdict for every certificate and
signature input, and in particular a truncated (wrong-length) signature
yields `Invalid` (`false`); only a malformed public key escapes as an
exception. -/
theorem c3_no_raise_wellformed_key (k : RSAPublicKey) (cert sig : List Nat) :
    verify_certificate cert sig (pemEncodePublicKey k) =
      Except.ok (rsassaVerify emsaPkcs1v15Sha256 k sig cert) ∧
    (sig.length ≠ octetLength k.n →
      verify_certificate cert sig (pemEncodePublicKey k) = Except.ok false) := by
  have hload := loadPem_roundtrip k
  constructor
  · simp [verify_certificate, hload]
  · intro hlen
    simp [verify_certificate, hload, rsassaVerify, hlen]

/-- Witness for C3 (amended) at a concrete key and a wrong-length signature. -/
theorem c3_no_raise_wellformed_key_witness :
    verify_certificate (strBytes "cert") [1, 2, 3] (pemEncodePublicKey ⟨3233, 17⟩) =
      Except.ok (rsassaVerify emsaPkcs1v15Sha256 ⟨3233, 17⟩ [1, 2, 3] (strBytes "cert")) ∧
    verify_certificate (strBytes "cert") [1, 2, 3] (pemEncodePublicKey ⟨3233, 17⟩) =
      Except.ok false := by
  have h := c3_no_raise_wellformed_key ⟨3233, 17⟩ (strBytes "cert") [1, 2, 3]
  exact ⟨h.1, h.2 (by decide)⟩

/-- Counterexample to claim C5: ids are not write-once — a second
`/wipe-drive` issuance whose fresh UUID truncates to an id already present
succeeds (no `DuplicateId`), and the registry afterwards returns the second
entry (drive `D:`), not the first (`C:`). -/
theorem c5_counterexample :
    wipeResultOk (api_wipe_drive (api_wipe_drive [] (some "C:".data) uuidSample nowSample).1
      (some "D:".data) uuidSample2 nowSample2).2 = true ∧
    (dictGet "a1b2c3d4".data
        (api_wipe_drive (api_wipe_drive [] (some "C:".data) uuidSample nowSample).1
          (some "D:".data) uuidSample2 nowSample2).1).map WipeEntry.drive =
      some "D:".data ∧
    ("D:".data : List Char) ≠ "C:".data := by
  exact ⟨rfl, rfl, by decide⟩

/-- Claim C5 (amended): a second put with an id already present does not fail
— `wipe_history[cert_id] = entry` is a plain dict assignment — and a get of
that id afterwards returns the second stored entry, the first being
overwritten. -/
theorem c5_put_overwrites (hist : WipeHistory) (d1 d2 u t1 t2 : List Char)
    (h1 : d1 ≠ []) (h2 : d2 ≠ []) :
    wipeResultOk (api_wipe_drive (api_wipe_drive hist (some d1) u t1).1
      (some d2) u t2).2 = true ∧
    dictGet (u.take 8) (api_wipe_drive (api_wipe_drive hist (some d1) u t1).1
      (some d2) u t2).1 =
      some ⟨d2, sha256Hex demoBytes, sha256Hex (List.replicate demoBytes.length 0), t2,
        certPdfPath (u.take 8)⟩ := by
  simp [api_wipe_drive, h1, h2, dictSet, dictGet, wipeResultOk]

/-- Witness for C5 (amended) at concrete inputs. -/
theorem c5_put_overwrites_witness :
    wipeResultOk (api_wipe_drive (api_wipe_drive [] (some "C:".data) uuidSample nowSample).1
      (some "D:".data) uuidSample nowSample2).2 = true ∧
    dictGet (uuidSample.take 8)
      (api_wipe_drive (api_wipe_drive [] (some "C:".data) uuidSample nowSample).1
        (some "D:".data) uuidSample nowSample2).1 =
      some ⟨"D:".data, sha256Hex demoBytes, sha256Hex (List.replicate demoBytes.length 0),
        nowSample2, certPdfPath (uuidSample.take 8)⟩ :=
  c5_put_overwrites [] "C:".data "D:".data uuidSample nowSample nowSample2
    (by decide) (by decide)

/-- Claim C6 (spec-modelled issuance path): an evidence string that is not
exactly 64 lowercase hex characters makes issuance fail with
`MalformedDigest`; the error result carries no record and no signature. -/
theorem c6_malformed_digest (pad : List Nat → Nat → Option Nat) (sk : RSAPrivateKey)
    (id subject issued_at pre post : List Char) :
    (validDigest64 pre = false →
      issueWithDigests pad sk id subject issued_at pre post =
        Except.error IssueError.MalformedDigest) ∧
    (validDigest64 post = false →
      issueWithDigests pad sk id subject issued_at pre post =
        Except.error IssueError.MalformedDigest) := by
  constructor
  · intro h
    simp [issueWithDigests, captureDigest, h]
  · intro h
    by_cases hpre : validDigest64 pre
    · simp [issueWithDigests, captureDigest, hpre, h]
    · simp [issueWithDigests, captureDigest, hpre]

/-- Witness for C6: a 63-character digest and a 64-character digest with an
uppercase letter are both rejected. -/
theorem c6_malformed_digest_witness :
    validDigest64 (List.replicate 63 'a') = false ∧
    issueWithDigests toyPad ⟨3233, 2753⟩ [] [] [] (List.replicate 63 'a') [] =
      Except.error IssueError.MalformedDigest ∧
    validDigest64 ("A".data ++ List.replicate 63 'a') = false ∧
    issueWithDigests toyPad ⟨3233, 2753⟩ [] [] [] (List.replicate 64 'a')
      ("A".data ++ List.replicate 63 'a') = Except.error IssueError.MalformedDigest := by
  refine ⟨by decide, ?_, by decide, ?_⟩
  · exact (c6_malformed_digest toyPad ⟨3233, 2753⟩ [] [] []
      (List.replicate 63 'a') []).1 (by decide)
  · exact (c6_malformed_digest toyPad ⟨3233, 2753⟩ [] [] []
      (List.replicate 64 'a') ("A".data ++ List.replicate 63 'a')).2 (by decide)

/-- Counterexample to claim C7: the demo issuance sets `post_hash` to the
SHA-256 digest of 27 zero bytes (`b"\x00" * len(demo_bytes)`, and the demo
plaintext has 27 bytes), which differs from the SHA-256 digest of 28 zero
bytes the claim names. -/
theorem c7_counterexample :
    wipePostHash (api_wipe_drive [] (some "Drive D:".data) uuidSample nowSample).2 =
      some (sha256Hex (List.replicate 27 0)) ∧
    sha256Hex (List.replicate 27 0) ≠ sha256Hex (List.replicate 28 0) := by
  exact ⟨rfl, by decide⟩

/-- Claim C7 (amended): in the demo scenario, issuance sets `pre_hash` to the
SHA-256 hex digest of `b"DemoSensitiveDataForHashing"` and `post_hash` to the
SHA-256 hex digest of 27 zero bytes (one per byte of the demo plaintext). -/
theorem c7_demo_hashes (hist : WipeHistory) (drive uuid now : List Char)
    (hd : drive ≠ []) :
    wipePreHash (api_wipe_drive hist (some drive) uuid now).2 =
      some (sha256Hex demoBytes) ∧
    wipePostHash (api_wipe_drive hist (some drive) uuid now).2 =
      some (sha256Hex (List.replicate 27 0)) := by
  have hlen : demoBytes.length = 27 := rfl
  constructor <;> simp [api_wipe_drive, hd, wipePreHash, wipePostHash, hlen]

/-- Witness for C7 (amended) at concrete inputs. -/
theorem c7_demo_hashes_witness :
    wipePreHash (api_wipe_drive [] (some "Drive D:".data) uuidSample nowSample).2 =
      some (sha256Hex demoBytes) ∧
    wipePostHash (api_wipe_drive [] (some "Drive D:".data) uuidSample nowSample).2 =
      some (sha256Hex (List.replicate 27 0)) :=
  c7_demo_hashes [] "Drive D:".data uuidSample nowSample (by decide)

/-- Claim C8: lookup absence is a normal outcome — for an id not in
`wipe_history` both the download route and the verify route answer with their
404 response, and for a stored id they return the stored entry. -/
theorem c8_lookup (hist : WipeHistory) (cid : List Char) :
    (dictGet cid hist = none →
      download_certificate hist cid = .notFound "Certificate not found".data ∧
      verifyRoute hist cid = .notFound cid) ∧
    (∀ e, dictGet cid hist = some e →
      download_certificate hist cid = .sendFile e.file ∧
      verifyRoute hist cid = .page cid e.drive e.timestamp e.pre_hash e.post_hash) := by
  constructor
  · intro h
    simp [download_certificate, verifyRoute, h]
  · intro e h
    simp [download_certificate, verifyRoute, h]

/-- Witness for C8 on an empty registry (absence) and a one-entry registry
(presence). -/
theorem c8_lookup_witness :
    (download_certificate [] "a1b2c3d4".data = .notFound "Certificate not found".data ∧
     verifyRoute [] "a1b2c3d4".data = .notFound "a1b2c3d4".data) ∧
    (download_certificate histSample "a1b2c3d4".data = .sendFile entrySample.file ∧
     verifyRoute histSample "a1b2c3d4".data = .page "a1b2c3d4".data entrySample.drive
       entrySample.timestamp entrySample.pre_hash entrySample.post_hash) :=
  ⟨(c8_lookup [] "a1b2c3d4".data).1 rfl,
   (c8_lookup histSample "a1b2c3d4".data).2 entrySample (by decide)⟩

/-- Claim C9: every certificate id generated by issuance is exactly 8
characters: the first 8 characters of the fresh UUID string (a UUID4
rendering is 36 characters long). -/
theorem c9_cert_id_length (hist : WipeHistory) (drive uuid now : List Char)
    (hd : drive ≠ []) (hu : uuid.length = 36) :
    wipeCertId (api_wipe_drive hist (some drive) uuid now).2 = some (uuid.take 8) ∧
    (uuid.take 8).length = 8 := by
  constructor
  · simp [api_wipe_drive, hd, wipeCertId]
  · simp [List.length_take, hu]

/-- Witness for C9 at a concrete 36-character UUID. -/
theorem c9_cert_id_length_witness :
    uuidSample.length = 36 ∧
    wipeCertId (api_wipe_drive [] (some "D:".data) uuidSample nowSample).2 =
      some (uuidSample.take 8) ∧
    (uuidSample.take 8).length = 8 := by
  have h := c9_cert_id_length [] "D:".data uuidSample nowSample (by decide) (by decide)
  exact ⟨by decide, h.1, h.2⟩

/-- Claim C10: issuance is atomic on bad input — a request body with a
missing or empty `drive` field yields the 400 error response and leaves
`wipe_history` exactly unchanged. -/
theorem c10_bad_request_atomic (hist : WipeHistory) (uuid now : List Char)
    (d : Option (List Char)) (h : d = none ∨ d = some []) :
    api_wipe_drive hist d uuid now = (hist, .badRequest pleaseSpecifyDrive) := by
  rcases h with h | h <;> subst h <;> rfl

/-- Witness for C10: the missing-field and empty-field cases at concrete
registries. -/
theorem c10_bad_request_atomic_witness :
    api_wipe_drive [] none uuidSample nowSample = ([], .badRequest pleaseSpecifyDrive) ∧
    api_wipe_drive histSample (some []) uuidSample nowSample =
      (histSample, .badRequest pleaseSpecifyDrive) :=
  ⟨c10_bad_request_atomic [] uuidSample nowSample none (Or.inl rfl),
   c10_bad_request_atomic histSample uuidSample nowSample (some []) (Or.inr rfl)⟩

end EraseX
